import Mathlib

/-!
Verification of the i2c-monitor sensor driver core.

Shallow embedding of the two device drivers:
* `CCS811` — gas sensor driver (src/devices/ccs811.py),
* `MAX30102` — humidity/temperature driver (src/devices/max30102.py).

Bus transactions and recovery calls are recorded as explicit action traces.
Numeric conversion code (Python arithmetic on sensor words) is modelled over
`Nat` / `Int` / `ℚ`; Python `int()` truncation and float `%` are modelled by
`pyint` and `pymod` below.
-/

/-- Python `int(x)` on a nonnegative-or-negative rational: truncation toward
zero (`int()` semantics for the float results produced by the driver). -/
def pyint (x : ℚ) : ℤ := if 0 ≤ x then ⌊x⌋ else -⌊-x⌋

/-- Python float `x % m` for a positive modulus `m`:
`x - m * floor (x / m)`, which is the Python definition of `%`. -/
def pymod (x m : ℚ) : ℚ := x - m * ⌊x / m⌋

namespace CCS811

/-- The six device fault causes decoded from the gas-sensor `error_id`
register (src/devices/ccs811.py lines 72-83). -/
inductive ErrorCause where
  | writeRegInvalid
  | readRegInvalid
  | measmodeInvalid
  | maxResistance
  | heaterFault
  | heaterSupply
  deriving DecidableEq

/-- Observable actions of the gas-sensor driver: bus transactions, the call
into `interpretStatus`, the warning log of the decoded fault cause, and the
recovery calls `softReset` / `initialize`. -/
inductive Action where
  | busWrite (data : List Nat)
  | writeread (addr len : Nat)
  | interpretCall
  | logCause (c : Option ErrorCause)
  | softResetA
  | initializeA
  deriving DecidableEq

-- Register-address constants from CCS811.__init__ (src/devices/ccs811.py).
def APP_START_ADDR : Nat := 0xf4
def MEAS_MODE_ADDR : Nat := 0x01
def MEAS_MODE_CMD : Nat := 0x10
def RESULT_ADDR : Nat := 0x02
def ENV_DATA : Nat := 0x05
def SW_RESET : Nat := 0xff

/-- The byte list written by `CCS811.softReset` (src/devices/ccs811.py
lines 48-52): the software-reset register address followed by the four-byte
reset key. -/
def softResetData : List Nat := [SW_RESET, 0x11, 0xe5, 0x72, 0x8a]

/-- Bus-transaction trace of `CCS811.softReset`: one write of
`softResetData`. -/
def softResetTrace : List Action := [.busWrite softResetData]

/-- The priority decoding of `error_id` performed by the warning chain
inside `CCS811.interpretStatus` (src/devices/ccs811.py lines 72-83):
first matching bit wins, `none` when no bit 0-5 is set. -/
def decodeErrorId (error_id : Nat) : Option ErrorCause :=
  if ¬(error_id &&& 2 ^ 0 = 0) then some .writeRegInvalid
  else if ¬(error_id &&& 2 ^ 1 = 0) then some .readRegInvalid
  else if ¬(error_id &&& 2 ^ 2 = 0) then some .measmodeInvalid
  else if ¬(error_id &&& 2 ^ 3 = 0) then some .maxResistance
  else if ¬(error_id &&& 2 ^ 4 = 0) then some .heaterFault
  else if ¬(error_id &&& 2 ^ 5 = 0) then some .heaterSupply
  else none

/-- The expected fault cause for error bit `i` (bit order of the warning
chain in `CCS811.interpretStatus`). -/
def errorCauseOfBit : Nat → Option ErrorCause
  | 0 => some .writeRegInvalid
  | 1 => some .readRegInvalid
  | 2 => some .measmodeInvalid
  | 3 => some .maxResistance
  | 4 => some .heaterFault
  | 5 => some .heaterSupply
  | _ => none

/-- `CCS811.interpretStatus` (src/devices/ccs811.py lines 68-94).
Returns the `is_ok` flag together with the trace of recovery actions the
call performs (fault-cause warning, `softReset()`, `initialize()`). -/
def interpretStatus (status error_id : Nat) : Bool × List Action :=
  if ¬(status &&& 2 ^ 0 = 0) then
    (false, [.logCause (decodeErrorId error_id), .softResetA, .initializeA])
  else if status &&& 2 ^ 3 = 0 then (false, [])
  else if status &&& 2 ^ 4 = 0 then (false, [])
  else if status &&& 2 ^ 7 = 0 then (false, [])
  else (true, [])

/-- `CCS811.getECO2ETVOC` (src/devices/ccs811.py lines 96-122) as a function
of the 8 bytes returned by the result-register transaction and of the
transport status code, paired with the action trace of the call. -/
def getECO2ETVOC (read_data : List Nat) (status_code : Nat) :
    (ℤ × ℤ) × List Action :=
  let trace0 : List Action := [.writeread RESULT_ADDR 8]
  if status_code = 0 then
    let status := read_data.getD 4 0
    let error_id := read_data.getD 5 0
    let r := interpretStatus status error_id
    let trace := trace0 ++ .interpretCall :: r.2
    if r.1 then
      let eCO2 : ℤ := ((read_data.getD 0 0 <<< 8) + read_data.getD 1 0 : Nat)
      let TVOC : ℤ := ((read_data.getD 2 0 <<< 8) + read_data.getD 3 0 : Nat)
      let _current := read_data.getD 6 0 &&& 0xfc
      let _raw_adc := (read_data.getD 6 0 &&& 0x03) + read_data.getD 7 0
      if TVOC < 0 ∨ 32768 < TVOC then ((-1, -1), trace)
      else ((eCO2, TVOC), trace)
    else ((-1, -1), trace)
  else ((-1, -1), trace0)

/-- `CCS811.writeEnvironmentData` (src/devices/ccs811.py lines 56-65):
`some payload` when the guard admits the values and a write is issued,
`none` when no write transaction occurs. -/
def writeEnvironmentData (humidity temperature : ℚ) : Option (List ℤ) :=
  if 0 < humidity ∧ -25 < temperature then
    some [(ENV_DATA : ℤ),
          pyint (humidity * 2 ^ 9 / 2 ^ 8),
          pyint (pymod (humidity * 2 ^ 9) (2 ^ 8)),
          pyint ((temperature + 25) * 2 ^ 9 / 2 ^ 8),
          pyint (pymod ((temperature + 25) * 2 ^ 9) (2 ^ 8))]
  else none

end CCS811

namespace MAX30102

/-- The exception raised by Python when an undefined attribute (such as the
missing `softReset` method of `MAX30102`) is accessed. -/
inductive PyError where
  | attributeError
  deriving DecidableEq

/-- Observable actions of the humidity/temperature driver. -/
inductive Action where
  | busWrite (data : List Nat)
  | busRead (len : Nat)
  | checkStatusCall
  deriving DecidableEq

/-- Modelled from the spec: the init and trigger-measurement command byte
sequences of the biometric driver. The source references
`self._INIT_CMD_LIST` and `self._TRIG_MEAS_LIST`, but no assignment of
either attribute exists anywhere under src/; the spec describes them as
fixed opaque device-specific constants, so they are modelled as opaque
parameters of the driver functions. -/
structure Cmds where
  INIT_CMD_LIST : List Nat
  TRIG_MEAS_LIST : List Nat
  deriving DecidableEq

/-- A placeholder parameter value used to evaluate the driver at concrete
inputs; no claim depends on the contents of the command sequences. -/
def mcmds0 : Cmds := ⟨[], []⟩

/-- `getBit` from the external pyi2c library (a dependency, not repository
code): bit `i` of byte `b`. -/
def getBit (b i : Nat) : Nat := (b >>> i) &&& 1

/-- `MAX30102.checkStatus` (src/devices/max30102.py lines 32-41): the
`is_ok` flag and the recovery actions performed (the missing-calibration
branch calls `initialize()`, which writes the init command sequence). -/
def checkStatus (c : Cmds) (status : Nat) : Bool × List Action :=
  if getBit status 7 = 1 then (false, [])
  else if getBit status 3 = 0 then (false, [.busWrite c.INIT_CMD_LIST])
  else (true, [])

/-- `MAX30102.getHumidityTemperature` (src/devices/max30102.py lines
43-82) as a function of the 7 bytes read and the transport status code.
The result carries the action trace; the out-of-range branch calls
`self.softReset()`, a method that does not exist on the class, so that
branch raises `AttributeError` (modelled by `Except.error`). -/
def getHumidityTemperature (c : Cmds) (read_data : List Nat)
    (status_code : Nat) : Except PyError ((ℚ × ℚ) × List Action) :=
  let trig : List Action := [.busWrite c.TRIG_MEAS_LIST, .busRead 7]
  if status_code = 0 then
    let status := read_data.getD 0 0
    let r := checkStatus c status
    if r.1 then
      let humidity_data : Nat :=
        (read_data.getD 1 0 <<< 12) + (read_data.getD 2 0 <<< 4) +
          (read_data.getD 3 0 &&& 0xf0)
      let temperature_data : Nat :=
        ((read_data.getD 3 0 &&& 0x0f) <<< 16) + (read_data.getD 4 0 <<< 8) +
          read_data.getD 5 0
      let humidity : ℚ := (humidity_data : ℚ) / 2 ^ 20 * 100
      let temperature : ℚ := (temperature_data : ℚ) / 2 ^ 20 * 200 - 50 - 1
      if temperature < -40 ∨ 120 < temperature ∨ humidity < 0 ∨ 100 < humidity
      then .error .attributeError
      else .ok ((humidity, temperature), trig ++ .checkStatusCall :: r.2)
    else .ok ((-1, -1), trig ++ .checkStatusCall :: r.2)
  else .ok ((-1, -1), trig)

/-- The humidity bit-packing as the specification words describe it:
byte 1 at bits 19-12, byte 2 at bits 11-4, and the high nibble of byte 3
at bits 3-0. Declared for comparison with the packing the source
actually computes. -/
def specHumidityData (b1 b2 b3 : Nat) : Nat :=
  (b1 <<< 12) + (b2 <<< 4) + (b3 >>> 4)

/-- A concrete sentinel result value of the humidity/temperature driver,
used to evaluate theorems about returned pairs at a concrete input. -/
def sentinelResult : (ℚ × ℚ) × List Action :=
  ((-1, -1), [.busWrite [], .busRead 7])

/-- The set of instance attributes that the class body of `MAX30102`
(src/devices/max30102.py) ever assigns: only `_i2cdevice`, set in
`__init__`. No other attribute assignment occurs anywhere in the
repository. -/
def assignedAttrs : List String := ["_i2cdevice"]

end MAX30102

/-! ### Helper lemmas -/

lemma land_two_pow_eq_zero_iff (n i : Nat) :
    n &&& 2 ^ i = 0 ↔ n.testBit i = false := by
  rw [Nat.and_two_pow]
  cases h : n.testBit i <;> simp [Nat.pow_eq_zero]

lemma interpretStatus_ok (s e : Nat) (h1 : s &&& 2 ^ 0 = 0)
    (h3 : ¬(s &&& 2 ^ 3 = 0)) (h4 : ¬(s &&& 2 ^ 4 = 0))
    (h7 : ¬(s &&& 2 ^ 7 = 0)) :
    CCS811.interpretStatus s e = (true, []) := by
  rw [CCS811.interpretStatus, if_neg (not_not_intro h1), if_neg h3, if_neg h4,
    if_neg h7]

lemma interpretStatus_err (s e : Nat) (h : ¬(s &&& 2 ^ 0 = 0)) :
    CCS811.interpretStatus s e =
      (false, [.logCause (CCS811.decodeErrorId e), .softResetA, .initializeA]) := by
  rw [CCS811.interpretStatus, if_pos h]

/-! ### Claim theorems -/

/-- Claim C5 counterexample: the byte list actually written by `softReset`
is not the 4-byte sequence 0xFF, 0x11, 0xE5, 0x8A that the claim lists
(the claim omits the key byte 0x72), although its total length is indeed
5 bytes as the claim also says. -/
theorem gas_softreset_key_counterexample :
    CCS811.softResetData ≠ [0xff, 0x11, 0xe5, 0x8a]
    ∧ CCS811.softResetData.length = 5 := by decide

/-- Claim C5 (amended): `softReset` performs a single write transaction of
exactly 5 bytes in total including the address: the software-reset register
address 0xFF followed by the reset key bytes 0x11, 0xE5, 0x72, 0x8A. -/
theorem gas_softreset_key :
    CCS811.softResetTrace = [.busWrite [0xff, 0x11, 0xe5, 0x72, 0x8a]]
    ∧ CCS811.softResetData.length = 5
    ∧ CCS811.softResetData = CCS811.SW_RESET :: [0x11, 0xe5, 0x72, 0x8a] := by
  decide

/-- Claim C9: the class body of `MAX30102` never assigns the attributes
`_INIT_CMD_LIST`, `_TRIG_MEAS_LIST` (or `_GET_STATUS`); the init and
trigger-measurement command sequences are therefore not defined as
constants of the driver, and `initialize()` / `getHumidityTemperature()`
raise `AttributeError` instead of writing them. -/
theorem max_missing_command_constants :
    "_INIT_CMD_LIST" ∉ MAX30102.assignedAttrs
    ∧ "_TRIG_MEAS_LIST" ∉ MAX30102.assignedAttrs
    ∧ "_GET_STATUS" ∉ MAX30102.assignedAttrs := by
  simp [MAX30102.assignedAttrs]

/-- Claim C2: bug evaluation. The claim (and the spec) say the 20-bit raw
humidity is packed with the high nibble of byte 3 at bits 3-0, i.e.
`specHumidityData`. The source instead adds `read_data[3] & 0xf0`
unshifted, which lands the nibble at bits 7-4, overlapping the
contribution of byte 2. On the payload `[0x08, 0, 0, 0x10, 0xFF, 0, 0]`
(status OK, byte 3 = 0x10) the code computes raw humidity 16 and returns
humidity 25/16384 percent, while the packing stated by the claim gives
raw humidity 1, i.e. 25/262144 percent; the two disagree. The temperature
side (t / 2^20 * 200 - 50 - 1) is exactly as the claim states. -/
theorem max_humidity_packing_bug :
    MAX30102.getHumidityTemperature MAX30102.mcmds0 [8, 0, 0, 16, 255, 0, 0] 0 =
      .ok ((25 / 16384, -19737 / 512), [.busWrite [], .busRead 7, .checkStatusCall])
    ∧ (MAX30102.specHumidityData 0 0 16 : ℚ) / 2 ^ 20 * 100 = 25 / 262144
    ∧ (25 / 16384 : ℚ) ≠ 25 / 262144 := by
  have hspec : MAX30102.specHumidityData 0 0 16 = 1 := by decide
  have h240 : (16 : ℕ) &&& 240 = 16 := by decide
  have h15 : (16 : ℕ) &&& 15 = 0 := by decide
  refine ⟨?_, by rw [hspec]; norm_num, by norm_num⟩
  simp [MAX30102.getHumidityTemperature, MAX30102.checkStatus, MAX30102.getBit,
    MAX30102.mcmds0, h240, h15]
  norm_num

/-- Claim C4: bug evaluation. On an out-of-range converted value the claim
says the driver logs, attempts a soft reset and returns (-1, -1). The
source calls `self.softReset()`, but class `MAX30102` defines no such
method, so the call raises `AttributeError` and no pair is returned. On
the payload `[0x08, 0xFF, 0xFF, 0xFF, 0, 0, 0]` (status OK, converted
humidity slightly above 100 percent) the call ends in the exception. -/
theorem max_out_of_range_reset_bug :
    MAX30102.getHumidityTemperature MAX30102.mcmds0 [8, 255, 255, 255, 0, 0, 0] 0 =
      .error .attributeError := by
  have h240 : (255 : ℕ) &&& 240 = 240 := by decide
  have h15 : (255 : ℕ) &&& 15 = 15 := by decide
  simp [MAX30102.getHumidityTemperature, MAX30102.checkStatus, MAX30102.getBit,
    MAX30102.mcmds0, h240, h15]
  norm_num

/-- Claim C8 counterexample: the payload `[0x08, 0, 0, 0x04, 0, 0, 0]` with
a successful transport decodes to humidity 0 percent and temperature
exactly -1 degree C (raw temperature 262144 scales to 50 - 50 = 0, and the
-1 calibration offset gives -1), both inside the plausibility ranges; the
returned pair therefore has exactly one component equal to -1, which the
claim says never happens. -/
theorem pair_sentinel_counterexample :
    MAX30102.getHumidityTemperature MAX30102.mcmds0 [8, 0, 0, 4, 0, 0, 0] 0 =
      .ok ((0, -1), [.busWrite [], .busRead 7, .checkStatusCall])
    ∧ (0 : ℚ) ≠ -1 := by
  have h240 : (4 : ℕ) &&& 240 = 0 := by decide
  have h15 : (4 : ℕ) &&& 15 = 4 := by decide
  refine ⟨?_, by norm_num⟩
  simp [MAX30102.getHumidityTemperature, MAX30102.checkStatus, MAX30102.getBit,
    MAX30102.mcmds0, h240, h15]
  norm_num

/-- Claim C1: for every 8-byte result payload read with transport success
whose status byte (byte 4) has the error bit clear and the data-ready,
firmware-valid and application-mode bits set, `getECO2ETVOC` returns the
big-endian pair (256*byte0 + byte1, 256*byte2 + byte3) whenever the
decoded eTVOC lies in [0, 32768], and (-1, -1) whenever it lies outside
[0, 32768]; no condition on the eCO2 component is checked, so eCO2 is
returned unchanged even outside its documented 400-29206 ppm range. -/
theorem gas_result_decode_valid (b0 b1 b2 b3 b4 b5 b6 b7 : Nat)
    (_hb0 : b0 < 256) (_hb1 : b1 < 256) (_hb2 : b2 < 256) (_hb3 : b3 < 256)
    (_hb4 : b4 < 256) (_hb5 : b5 < 256) (_hb6 : b6 < 256) (_hb7 : b7 < 256)
    (herr : b4 &&& 2 ^ 0 = 0) (hdat : ¬(b4 &&& 2 ^ 3 = 0))
    (hfw : ¬(b4 &&& 2 ^ 4 = 0)) (happ : ¬(b4 &&& 2 ^ 7 = 0)) :
    (0 ≤ 256 * (b2 : ℤ) + b3 ∧ 256 * (b2 : ℤ) + b3 ≤ 32768 →
      (CCS811.getECO2ETVOC [b0, b1, b2, b3, b4, b5, b6, b7] 0).1 =
        (256 * (b0 : ℤ) + b1, 256 * (b2 : ℤ) + b3))
    ∧ ((256 * (b2 : ℤ) + b3 < 0 ∨ 32768 < 256 * (b2 : ℤ) + b3) →
      (CCS811.getECO2ETVOC [b0, b1, b2, b3, b4, b5, b6, b7] 0).1 = (-1, -1)) := by
  have hok := interpretStatus_ok b4 b5 herr hdat hfw happ
  constructor
  · rintro ⟨h1, h2⟩
    simp [CCS811.getECO2ETVOC, hok]
    split_ifs with hc
    · exfalso; rcases hc with hc | hc <;> omega
    · simp
      constructor <;> omega
  · intro hor
    simp [CCS811.getECO2ETVOC, hok]
    split_ifs with hc
    · rfl
    · exfalso; rcases hor with hor | hor
      · omega
      · exact hc (Or.inr (by omega))

/-- Claim C1 witness: a payload with status byte 0x98 (bits 3, 4, 7 set,
bit 0 clear) and eTVOC = 200 decodes to (400, 200); one with eTVOC =
33024 > 32768 yields (-1, -1). -/
theorem gas_result_decode_valid_witness :
    (CCS811.getECO2ETVOC [1, 144, 0, 200, 152, 0, 0, 0] 0).1 = (400, 200)
    ∧ (CCS811.getECO2ETVOC [0, 0, 129, 0, 152, 0, 0, 0] 0).1 = (-1, -1) := by
  constructor
  · have h := (gas_result_decode_valid 1 144 0 200 152 0 0 0
      (by decide) (by decide) (by decide) (by decide) (by decide) (by decide)
      (by decide) (by decide) (by decide) (by decide) (by decide) (by decide)).1
      ⟨by decide, by decide⟩
    simpa using h
  · have h := (gas_result_decode_valid 0 0 129 0 152 0 0 0
      (by decide) (by decide) (by decide) (by decide) (by decide) (by decide)
      (by decide) (by decide) (by decide) (by decide) (by decide) (by decide)).2
      (Or.inr (by decide))
    simpa using h

/-- Claim C10: with a valid status byte, the decoded TVOC word formed from
two unsigned bytes always lies in [0, 65535], so the `TVOC < 0` arm of the
plausibility check can never fire; the pair is rejected (both components
reset to -1) exactly when TVOC exceeds 32768, and the boundary value
32768 itself is accepted. -/
theorem gas_tvoc_plausibility (b0 b1 b2 b3 b4 b5 b6 b7 : Nat)
    (_hb0 : b0 < 256) (_hb1 : b1 < 256) (hb2 : b2 < 256) (hb3 : b3 < 256)
    (_hb4 : b4 < 256) (_hb5 : b5 < 256) (_hb6 : b6 < 256) (_hb7 : b7 < 256)
    (herr : b4 &&& 2 ^ 0 = 0) (hdat : ¬(b4 &&& 2 ^ 3 = 0))
    (hfw : ¬(b4 &&& 2 ^ 4 = 0)) (happ : ¬(b4 &&& 2 ^ 7 = 0)) :
    (0 ≤ 256 * (b2 : ℤ) + b3 ∧ 256 * (b2 : ℤ) + b3 ≤ 65535)
    ∧ ¬(256 * (b2 : ℤ) + b3 < 0)
    ∧ ((CCS811.getECO2ETVOC [b0, b1, b2, b3, b4, b5, b6, b7] 0).1 = (-1, -1) ↔
        32768 < 256 * (b2 : ℤ) + b3) := by
  have hok := interpretStatus_ok b4 b5 herr hdat hfw happ
  refine ⟨⟨by omega, by omega⟩, by omega, ?_⟩
  simp [CCS811.getECO2ETVOC, hok]
  split_ifs with hc
  · simp
    rcases hc with hc | hc <;> omega
  · constructor
    · intro heq
      simp [Prod.ext_iff] at heq
      omega
    · intro hlt
      exact absurd (Or.inr (by omega : (32768 : ℤ) < ↑(b2 <<< 8) + ↑b3)) hc

/-- Claim C10 witness: at the boundary eTVOC value 32768 (bytes 128, 0)
the pair is accepted. -/
theorem gas_tvoc_plausibility_witness :
    ¬(256 * ((128 : ℕ) : ℤ) + ((0 : ℕ) : ℤ) < 0)
    ∧ ((CCS811.getECO2ETVOC [0, 0, 128, 0, 152, 0, 0, 0] 0).1 = (-1, -1) ↔
        32768 < 256 * ((128 : ℕ) : ℤ) + ((0 : ℕ) : ℤ)) := by
  have h := gas_tvoc_plausibility 0 0 128 0 152 0 0 0
    (by decide) (by decide) (by decide) (by decide) (by decide) (by decide)
    (by decide) (by decide) (by decide) (by decide) (by decide) (by decide)
  exact ⟨h.2.1, h.2.2⟩

/-- Claim C3: for every status byte with bit 0 set and every error_id,
`interpretStatus` returns invalid (`false`) and its recovery trace is
exactly one fault-cause warning, then exactly one `softReset`, then
exactly one `initialize`, in that order; the warned cause is the
decoding of error_id bits 0-5 in strict priority order (the lowest set
bit wins); and any `getECO2ETVOC` call whose payload carries such a
status byte returns (-1, -1). -/
theorem gas_error_recovery (status error_id : Nat)
    (herr : ¬(status &&& 2 ^ 0 = 0)) :
    CCS811.interpretStatus status error_id =
      (false, [.logCause (CCS811.decodeErrorId error_id),
               .softResetA, .initializeA])
    ∧ (∀ i ≤ 5, error_id.testBit i = true →
        (∀ j < i, error_id.testBit j = false) →
        CCS811.decodeErrorId error_id = CCS811.errorCauseOfBit i)
    ∧ (∀ d : List Nat, d.getD 4 0 = status →
        (CCS811.getECO2ETVOC d 0).1 = (-1, -1)) := by
  refine ⟨interpretStatus_err status error_id herr, ?_, ?_⟩
  · intro i hi hb hl
    have key : ∀ k, error_id &&& 2 ^ k = 0 ↔ error_id.testBit k = false :=
      fun k => land_two_pow_eq_zero_iff error_id k
    have hz : ∀ k, k < i → error_id &&& 2 ^ k = 0 :=
      fun k hk => (key k).2 (hl k hk)
    have hbit : ¬(error_id &&& 2 ^ i = 0) := by rw [key i, hb]; simp
    interval_cases i
    · rw [CCS811.decodeErrorId, if_pos hbit]; rfl
    · rw [CCS811.decodeErrorId, if_neg (not_not_intro (hz 0 (by omega))),
        if_pos hbit]
      rfl
    · rw [CCS811.decodeErrorId, if_neg (not_not_intro (hz 0 (by omega))),
        if_neg (not_not_intro (hz 1 (by omega))), if_pos hbit]
      rfl
    · rw [CCS811.decodeErrorId, if_neg (not_not_intro (hz 0 (by omega))),
        if_neg (not_not_intro (hz 1 (by omega))),
        if_neg (not_not_intro (hz 2 (by omega))), if_pos hbit]
      rfl
    · rw [CCS811.decodeErrorId, if_neg (not_not_intro (hz 0 (by omega))),
        if_neg (not_not_intro (hz 1 (by omega))),
        if_neg (not_not_intro (hz 2 (by omega))),
        if_neg (not_not_intro (hz 3 (by omega))), if_pos hbit]
      rfl
    · rw [CCS811.decodeErrorId, if_neg (not_not_intro (hz 0 (by omega))),
        if_neg (not_not_intro (hz 1 (by omega))),
        if_neg (not_not_intro (hz 2 (by omega))),
        if_neg (not_not_intro (hz 3 (by omega))),
        if_neg (not_not_intro (hz 4 (by omega))), if_pos hbit]
      rfl
  · intro d hd
    simp only [List.getD, List.get?_eq_getElem?] at hd
    have hr := interpretStatus_err status (d[5]?.getD 0) herr
    simp [CCS811.getECO2ETVOC, List.getD, hd, hr]

/-- Claim C3 witness: status byte 0x01 with error_id 0x03 (bits 0 and 1
set) warns of the write-register-invalid cause (bit 0 wins), resets and
reinitializes once each, and the corresponding payload yields (-1, -1). -/
theorem gas_error_recovery_witness :
    CCS811.interpretStatus 1 3 =
      (false, [.logCause (some .writeRegInvalid), .softResetA, .initializeA])
    ∧ CCS811.decodeErrorId 3 = CCS811.errorCauseOfBit 0
    ∧ (CCS811.getECO2ETVOC [0, 0, 0, 0, 1, 3, 0, 0] 0).1 = (-1, -1) := by
  have h := gas_error_recovery 1 3 (by decide)
  refine ⟨?_, ?_, ?_⟩
  · rw [h.1]; decide
  · exact h.2.1 0 (by omega) (by decide) (fun j hj => absurd hj (by omega))
  · exact h.2.2 [0, 0, 0, 0, 1, 3, 0, 0] rfl

lemma pymod_nonneg (x m : ℚ) (hm : 0 < m) : 0 ≤ pymod x m := by
  have h1 : ((⌊x / m⌋ : ℚ)) ≤ x / m := Int.floor_le _
  have h2 : m * ((⌊x / m⌋ : ℚ)) ≤ m * (x / m) :=
    mul_le_mul_of_nonneg_left h1 hm.le
  have h3 : m * (x / m) = x := by field_simp
  unfold pymod
  linarith

lemma hi_lo_eq_floor (x : ℚ) (hx : 0 ≤ x) :
    pyint (x / 2 ^ 8) * 256 + pyint (pymod x (2 ^ 8)) = ⌊x⌋ := by
  have hd : (0 : ℚ) ≤ x / 2 ^ 8 := by positivity
  have hm : (0 : ℚ) ≤ pymod x (2 ^ 8) := pymod_nonneg x _ (by norm_num)
  rw [pyint, if_pos hd, pyint, if_pos hm]
  unfold pymod
  have hc : x - (2 : ℚ) ^ 8 * (⌊x / 2 ^ 8⌋ : ℚ) =
      x - ((2 ^ 8 * ⌊x / 2 ^ 8⌋ : ℤ) : ℚ) := by push_cast; ring
  rw [hc, Int.floor_sub_int]
  have h256 : (2 : ℤ) ^ 8 = 256 := by norm_num
  rw [h256]
  ring

lemma floor_scaled_close (y : ℚ) :
    |((⌊y * 2 ^ 9⌋ : ℤ) : ℚ) / 512 - y| < 1 / 512 := by
  have l1 : ((⌊y * 2 ^ 9⌋ : ℤ) : ℚ) ≤ y * 2 ^ 9 := Int.floor_le _
  have l2 : y * 2 ^ 9 - 1 < ((⌊y * 2 ^ 9⌋ : ℤ) : ℚ) := Int.sub_one_lt_floor _
  rw [show ((2 : ℚ) ^ 9) = 512 from by norm_num] at l1 l2 ⊢
  rw [abs_lt]
  constructor <;> linarith

/-- Claim C6: for humidity > 0 and temperature > -25,
`writeEnvironmentData` performs exactly one write consisting of the
environment-data register address 0x05 followed by 4 payload bytes (the
Q9 hi/lo pairs of humidity and of temperature + 25), and decoding each
(hi, lo) pair as (hi*256 + lo)/512 reconstructs the original humidity,
respectively temperature after removing the +25 bias of the encoding,
to within 1/512; for humidity ≤ 0 or temperature ≤ -25 no write occurs
at all. -/
theorem gas_env_roundtrip (h t : ℚ) :
    (0 < h → -25 < t →
      CCS811.writeEnvironmentData h t =
        some [(CCS811.ENV_DATA : ℤ),
              pyint (h * 2 ^ 9 / 2 ^ 8), pyint (pymod (h * 2 ^ 9) (2 ^ 8)),
              pyint ((t + 25) * 2 ^ 9 / 2 ^ 8),
              pyint (pymod ((t + 25) * 2 ^ 9) (2 ^ 8))]
      ∧ |(((pyint (h * 2 ^ 9 / 2 ^ 8) * 256 +
            pyint (pymod (h * 2 ^ 9) (2 ^ 8)) : ℤ) : ℚ)) / 512 - h| < 1 / 512
      ∧ |(((pyint ((t + 25) * 2 ^ 9 / 2 ^ 8) * 256 +
            pyint (pymod ((t + 25) * 2 ^ 9) (2 ^ 8)) : ℤ) : ℚ)) / 512 - 25 - t|
          < 1 / 512)
    ∧ ((h ≤ 0 ∨ t ≤ -25) → CCS811.writeEnvironmentData h t = none) := by
  constructor
  · intro hh ht
    refine ⟨by rw [CCS811.writeEnvironmentData, if_pos ⟨hh, ht⟩], ?_, ?_⟩
    · have he := hi_lo_eq_floor (h * 2 ^ 9) (by positivity)
      rw [he]
      exact floor_scaled_close h
    · have hnn : (0 : ℚ) ≤ (t + 25) * 2 ^ 9 := by nlinarith
      have he := hi_lo_eq_floor ((t + 25) * 2 ^ 9) hnn
      rw [he]
      have hcl := floor_scaled_close (t + 25)
      rw [show ((⌊(t + 25) * 2 ^ 9⌋ : ℤ) : ℚ) / 512 - 25 - t =
          ((⌊(t + 25) * 2 ^ 9⌋ : ℤ) : ℚ) / 512 - (t + 25) from by ring]
      exact hcl
  · intro hor
    rw [CCS811.writeEnvironmentData, if_neg]
    rintro ⟨hh, ht⟩
    rcases hor with hc | hc <;> linarith

/-- Claim C6 witness: at humidity 50 and temperature 20 the write payload
is present with both round-trip bounds, and at humidity 0 (or any
humidity ≤ 0) no write occurs. -/
theorem gas_env_roundtrip_witness :
    (CCS811.writeEnvironmentData 50 20 =
        some [(CCS811.ENV_DATA : ℤ),
              pyint (50 * 2 ^ 9 / 2 ^ 8), pyint (pymod (50 * 2 ^ 9) (2 ^ 8)),
              pyint ((20 + 25) * 2 ^ 9 / 2 ^ 8),
              pyint (pymod ((20 + 25) * 2 ^ 9) (2 ^ 8))]
      ∧ |(((pyint (50 * 2 ^ 9 / 2 ^ 8) * 256 +
            pyint (pymod (50 * 2 ^ 9) (2 ^ 8)) : ℤ) : ℚ)) / 512 - 50| < 1 / 512
      ∧ |(((pyint ((20 + 25) * 2 ^ 9 / 2 ^ 8) * 256 +
            pyint (pymod ((20 + 25) * 2 ^ 9) (2 ^ 8)) : ℤ) : ℚ)) / 512 - 25 - 20|
          < 1 / 512)
    ∧ CCS811.writeEnvironmentData 0 30 = none :=
  ⟨(gas_env_roundtrip 50 20).1 (by norm_num) (by norm_num),
   (gas_env_roundtrip 0 30).2 (Or.inl (by norm_num))⟩

/-- Claim C7: whenever the transport status code is non-zero, both
`getECO2ETVOC` and `getHumidityTemperature` return (-1, -1), and neither
`interpretStatus` nor `checkStatus` is invoked (the traces contain no
status-interpretation call, only the unconditional bus transactions). -/
theorem transport_failure_skips_interpretation (d dm : List Nat)
    (c : MAX30102.Cmds) (sc : Nat) (hsc : sc ≠ 0) :
    CCS811.getECO2ETVOC d sc = ((-1, -1), [.writeread CCS811.RESULT_ADDR 8])
    ∧ CCS811.Action.interpretCall ∉ (CCS811.getECO2ETVOC d sc).2
    ∧ MAX30102.getHumidityTemperature c dm sc =
        .ok ((-1, -1), [.busWrite c.TRIG_MEAS_LIST, .busRead 7])
    ∧ MAX30102.Action.checkStatusCall ∉
        ([.busWrite c.TRIG_MEAS_LIST, .busRead 7] : List MAX30102.Action) := by
  refine ⟨?_, ?_, ?_, by simp⟩
  · simp [CCS811.getECO2ETVOC, hsc]
  · simp [CCS811.getECO2ETVOC, hsc]
  · simp [MAX30102.getHumidityTemperature, hsc]

/-- Claim C7 witness: with status code 1 both drivers return the sentinel
pair and no interpretation call appears in either trace. -/
theorem transport_failure_skips_interpretation_witness :
    CCS811.getECO2ETVOC [] 1 = ((-1, -1), [.writeread CCS811.RESULT_ADDR 8])
    ∧ CCS811.Action.interpretCall ∉ (CCS811.getECO2ETVOC [] 1).2
    ∧ MAX30102.getHumidityTemperature MAX30102.mcmds0 [] 1 =
        .ok ((-1, -1),
             [.busWrite MAX30102.mcmds0.TRIG_MEAS_LIST, .busRead 7])
    ∧ MAX30102.Action.checkStatusCall ∉
        ([.busWrite MAX30102.mcmds0.TRIG_MEAS_LIST, .busRead 7] :
          List MAX30102.Action) :=
  transport_failure_skips_interpretation [] [] MAX30102.mcmds0 1 (by decide)

/-- Claim C8 (amended): each returned pair is set all-or-nothing — on
every failure path both components are the sentinel -1, and on success
both components are the decoded measurement values (the gas pair equal to
the big-endian decodes with eTVOC at most 32768, the biometric pair
inside the plausibility ranges). However, -1 is itself a possible valid
decoded temperature, so a successfully decoded biometric pair may
nevertheless carry exactly one component equal to -1 (see the
counterexample); the pairing is all-or-nothing per failure path, not by
inspection of the returned values. -/
theorem measurement_pair_all_or_nothing (d dm : List Nat)
    (c : MAX30102.Cmds) (sc scm : Nat)
    (r : (ℚ × ℚ) × List MAX30102.Action)
    (hr : MAX30102.getHumidityTemperature c dm scm = .ok r) :
    ((CCS811.getECO2ETVOC d sc).1 = (-1, -1) ∨
      ((CCS811.getECO2ETVOC d sc).1 =
          ((((d.getD 0 0 <<< 8) + d.getD 1 0 : ℕ) : ℤ),
           (((d.getD 2 0 <<< 8) + d.getD 3 0 : ℕ) : ℤ))
        ∧ 0 ≤ (CCS811.getECO2ETVOC d sc).1.1
        ∧ 0 ≤ (CCS811.getECO2ETVOC d sc).1.2
        ∧ (CCS811.getECO2ETVOC d sc).1.2 ≤ 32768))
    ∧ (r.1 = (-1, -1) ∨
        (0 ≤ r.1.1 ∧ r.1.1 ≤ 100 ∧ -40 ≤ r.1.2 ∧ r.1.2 ≤ 120)) := by
  constructor
  · simp only [CCS811.getECO2ETVOC]
    split_ifs with h1 h2 h3
    · left; rfl
    · right
      refine ⟨rfl, ?_, ?_, ?_⟩
      · show (0 : ℤ) ≤ ((d.getD 0 0 <<< 8) + d.getD 1 0 : ℕ)
        positivity
      · show (0 : ℤ) ≤ ((d.getD 2 0 <<< 8) + d.getD 3 0 : ℕ)
        positivity
      · show (((d.getD 2 0 <<< 8) + d.getD 3 0 : ℕ) : ℤ) ≤ 32768
        omega
    · left; rfl
    · left; rfl
  · simp only [MAX30102.getHumidityTemperature] at hr
    split_ifs at hr with m1 m2 m3
    · have hr2 := Except.ok.inj hr
      subst hr2
      right
      push_neg at m3
      obtain ⟨g1, g2, g3, g4⟩ := m3
      exact ⟨g3, g4, g1, g2⟩
    · have hr2 := Except.ok.inj hr
      subst hr2
      left
      rfl
    · have hr2 := Except.ok.inj hr
      subst hr2
      left
      rfl

/-- Claim C8 witness: a concrete gas payload decoding to (400, 200) and a
concrete failed biometric transaction returning the sentinel pair. -/
theorem measurement_pair_all_or_nothing_witness :
    ((CCS811.getECO2ETVOC [1, 144, 0, 200, 152, 0, 0, 0] 0).1 = (-1, -1) ∨
      ((CCS811.getECO2ETVOC [1, 144, 0, 200, 152, 0, 0, 0] 0).1 =
          (((([1, 144, 0, 200, 152, 0, 0, 0].getD 0 0 <<< 8) +
              [1, 144, 0, 200, 152, 0, 0, 0].getD 1 0 : ℕ) : ℤ),
           ((([1, 144, 0, 200, 152, 0, 0, 0].getD 2 0 <<< 8) +
              [1, 144, 0, 200, 152, 0, 0, 0].getD 3 0 : ℕ) : ℤ))
        ∧ 0 ≤ (CCS811.getECO2ETVOC [1, 144, 0, 200, 152, 0, 0, 0] 0).1.1
        ∧ 0 ≤ (CCS811.getECO2ETVOC [1, 144, 0, 200, 152, 0, 0, 0] 0).1.2
        ∧ (CCS811.getECO2ETVOC [1, 144, 0, 200, 152, 0, 0, 0] 0).1.2 ≤ 32768))
    ∧ (MAX30102.sentinelResult.1 = (-1, -1) ∨
        (0 ≤ MAX30102.sentinelResult.1.1 ∧ MAX30102.sentinelResult.1.1 ≤ 100
          ∧ -40 ≤ MAX30102.sentinelResult.1.2
          ∧ MAX30102.sentinelResult.1.2 ≤ 120)) :=
  measurement_pair_all_or_nothing [1, 144, 0, 200, 152, 0, 0, 0] []
    MAX30102.mcmds0 0 1 MAX30102.sentinelResult
    (by simp [MAX30102.getHumidityTemperature, MAX30102.mcmds0,
      MAX30102.sentinelResult])
